import Mathlib

/-!
Verification of `parse_messages.py` (slskd-chat-watcher): a shallow embedding
of the store accessor, the change sentinel, the watch loop and the
presentation layer of the script, with theorems settling the specification
claims C1 to C10.
-/

namespace SlskdChatWatcher

/-- Modification times of the WAL companion artifact.  Python
`os.path.getmtime` returns a float; we model it as a rational, since the
code only ever compares two sampled values for equality. -/
abbrev Modtime := ℚ

/-- A row of the `PrivateMessages` table (`sqlite3.Row`, accessed by column
name).  All four columns are nullable at the SQL level; `Id` is an integer,
the others are text. -/
structure Row where
  Id : Option Int
  Timestamp : Option String
  Username : Option String
  Message : Option String
deriving DecidableEq, Repr

/-- The backing store as seen by one `latest()` query: either the query runs
and sees a list of rows (`ok`), or the query raises `sqlite3.Error`
(`err`, carrying the error text) — e.g. missing table, malformed schema,
I/O error. -/
inductive Store where
  | ok (rows : List Row)
  | err (msg : String)
deriving DecidableEq, Repr

/-- SQLite `ORDER BY Timestamp DESC` comparison on the nullable `Timestamp`
column: `NULL` sorts below every text value, text compares bytewise. -/
def tsLt : Option String → Option String → Bool
  | none, some _ => true
  | none, none => false
  | some _, none => false
  | some a, some b => a < b

/-- Row selected by `SELECT * FROM PrivateMessages ORDER BY Timestamp DESC
LIMIT 1`: a row with maximal `Timestamp` (ties keep the stable order the
engine provides; here, the first such row), `none` on an empty table. -/
def latestRow (rows : List Row) : Option Row :=
  rows.foldl
    (fun acc r =>
      match acc with
      | none => some r
      | some best => if tsLt best.Timestamp r.Timestamp then some r else some best)
    none

/-- `get_most_recent_message` (src/parse_messages.py lines 33–58): runs the
`LIMIT 1` query and returns the fetched row, `None` when the table is
empty.  A `sqlite3.Error` raised by the query is caught inside the function
(a diagnostic is printed only when `show_details` is set, which watch mode
does not set) and the function then falls through, returning `None` as
well; printing does not affect the returned value and is not modelled. -/
def get_most_recent_message : Store → Option Row
  | .ok rows => latestRow rows
  | .err _ => none

/-- `get_wal_modtime` (lines 59–64): `os.path.getmtime` on the companion
`messaging.db-wal` artifact, `None` when the file does not exist.  The
argument is the sampled filesystem state: the modtime of the artifact when
it is present. -/
def get_wal_modtime (walState : Option Modtime) : Option Modtime :=
  walState

/-- Python `value or default` on a nullable text column: the default
replaces both `None` and the empty string (Python truthiness). -/
def pyOr (v : Option String) (default : String) : String :=
  match v with
  | some s => if s = "" then default else s
  | none => default

/-- `display_default_message` (lines 66–72): formats a row as
`[timestamp][username] message`, with Python `or` fallbacks
`"unknown time"`, `"unknown user"`, `"no message"`; a falsy (absent) row
produces no output. -/
def display_default_message (message_row : Option Row) : Option String :=
  message_row.map fun row =>
    "[" ++ pyOr row.Timestamp "unknown time" ++ "][" ++ pyOr row.Username "unknown user"
      ++ "] " ++ pyOr row.Message "no message"

/-- The working memory of the watch loop across ticks: the `last_timestamp`
and `last_wal_modtime` locals of `watch_mode`. -/
structure WatchState where
  last_timestamp : Option String
  last_wal_modtime : Option Modtime
deriving DecidableEq, Repr

/-- Sentinel change test of `watch_mode` (line 101):
`current_wal_modtime != last_wal_modtime`, with `None` (absent artifact)
participating in the comparison. -/
def wal_changed (last current : Option Modtime) : Bool :=
  current != last

/-- Result of one iteration of the `while True` body of `watch_mode`
(lines 92–117): the updated state, whether a store query was issued on this
tick, and the message emitted on this tick, if any. -/
structure TickResult where
  state : WatchState
  queried : Bool
  emitted : Option Row
deriving DecidableEq, Repr

/-- One tick of `watch_mode` (lines 92–117): sample the WAL modtime; if it
differs from the recorded value, record it; if it is present, query
`latest()`; if a row comes back whose `Timestamp` differs (string
comparison) from the recorded one, record the new timestamp and emit the
row; then sleep.  `store` is the store contents the tick would observe if
it queried. -/
def watch_tick (st : WatchState) (current_wal_modtime : Option Modtime)
    (store : Store) : TickResult :=
  if wal_changed st.last_wal_modtime current_wal_modtime then
    let st1 : WatchState := { st with last_wal_modtime := current_wal_modtime }
    match current_wal_modtime with
    | some _ =>
      match get_most_recent_message store with
      | some current_message =>
        if current_message.Timestamp != st1.last_timestamp then
          { state := { st1 with last_timestamp := current_message.Timestamp },
            queried := true, emitted := some current_message }
        else
          { state := st1, queried := true, emitted := none }
      | none => { state := st1, queried := true, emitted := none }
    | none => { state := st1, queried := false, emitted := none }
  else
    { state := st, queried := false, emitted := none }

/-- Initialization of `watch_mode` (lines 79–86): seed `last_timestamp`
from one `latest()` query (printing "No messages found in database" and
returning from `watch_mode` when there is none, modelled as `none`) and
seed `last_wal_modtime` from one WAL sample. -/
def watch_init (store : Store) (wal : Option Modtime) : Option WatchState :=
  match get_most_recent_message store with
  | none => none
  | some latest_message =>
    some { last_timestamp := latest_message.Timestamp
           last_wal_modtime := get_wal_modtime wal }

/-- A run of the watch loop over a finite prefix of ticks, each tick given
the WAL sample and store contents it observes.  The loop body neither
breaks nor raises: every scheduled tick executes and contributes one
`TickResult` (termination comes only from an external
`KeyboardInterrupt`, observed during the sleep between ticks). -/
def watch_run : WatchState → List (Option Modtime × Store) → List TickResult
  | _, [] => []
  | st, (cur, s) :: rest =>
    let r := watch_tick st cur s
    r :: watch_run r.state rest

/-- Connection modes of `connect_to_database` (lines 15–31): plain
read-write, or read-only/immutable via the `mode=ro&immutable=1` URI.  The
error path (connect raises, function returns `None` and `main` exits 1) is
not needed by the claims and is not modelled. -/
inductive ConnMode where
  | rw
  | roImmutable
deriving DecidableEq, Repr

/-- Mode chosen by `connect_to_database` from its `read_only` flag. -/
def connect_to_database (read_only : Bool) : ConnMode :=
  if read_only then ConnMode.roImmutable else ConnMode.rw

/-- Connection mode used by `main` (line 163): `read_only=False` is passed
unconditionally, for watch and one-shot invocations alike. -/
def main_connect_mode (_watchFlag : Bool) : ConnMode :=
  connect_to_database false

/-- Exit status of `main` (lines 167–196) for a store that opens
successfully, as a function of the watch flag and the store contents.
`none` means `main` does not terminate on its own (it enters the polling
loop, which only an external interrupt ends).  In watch mode an empty
query result makes `watch_mode` print "No messages found in database" and
return, after which `main` finishes normally (status 0); in one-shot mode
an empty result triggers `sys.exit(1)`. -/
def main_exit_code (watchFlag : Bool) (store : Store) : Option Nat :=
  if watchFlag then
    match get_most_recent_message store with
    | none => some 0
    | some _ => none
  else
    match get_most_recent_message store with
    | none => some 1
    | some _ => some 0

/-- Helper: a finite watch run executes exactly one tick per scheduled
input; no input ever shortens the run. -/
lemma watch_run_length (ticks : List (Option Modtime × Store)) :
    ∀ st : WatchState, (watch_run st ticks).length = ticks.length := by
  induction ticks with
  | nil => intro st; rfl
  | cons t rest ih =>
    intro st
    cases t with
    | mk cur s => simp [watch_run, ih]

/-- Helper: the `LIMIT 1` query on a nonempty table always yields a row. -/
lemma latestRow_cons_isSome (r : Row) (rows : List Row) :
    (latestRow (r :: rows)).isSome = true := by
  suffices h : ∀ (l : List Row) (b : Row),
      (l.foldl (fun acc x =>
        match acc with
        | none => some x
        | some best => if tsLt best.Timestamp x.Timestamp then some x else some best)
        (some b)).isSome = true by
    exact h rows r
  intro l
  induction l with
  | nil => intro b; rfl
  | cons x xs ih =>
    intro b
    simp only [List.foldl]
    by_cases h : tsLt b.Timestamp x.Timestamp = true
    · simp [h, ih]
    · simp [h, ih]

/-- C1: on any watch tick that issues a store query and gets a row back, a
message is emitted exactly when the returned timestamp differs (string
comparison) from the recorded one; on a change the recorded timestamp is
updated to the new value and the row is emitted, and on equality nothing
is emitted and the recorded timestamp is unchanged. -/
theorem tick_emission_iff_changed_timestamp
    (st : WatchState) (cur : Option Modtime) (store : Store) (m : Row)
    (hq : (watch_tick st cur store).queried = true)
    (hm : get_most_recent_message store = some m) :
    ((watch_tick st cur store).emitted = some m ↔ m.Timestamp ≠ st.last_timestamp)
    ∧ (m.Timestamp ≠ st.last_timestamp →
        (watch_tick st cur store).state.last_timestamp = m.Timestamp
          ∧ (watch_tick st cur store).emitted = some m)
    ∧ (m.Timestamp = st.last_timestamp →
        (watch_tick st cur store).emitted = none
          ∧ (watch_tick st cur store).state.last_timestamp = st.last_timestamp) := by
  unfold watch_tick at hq ⊢
  by_cases h : wal_changed st.last_wal_modtime cur = true
  · cases cur with
    | none => simp_all [wal_changed, bne_iff_ne]
    | some mt =>
      rw [hm] at hq ⊢
      by_cases ht : (m.Timestamp != st.last_timestamp) = true <;>
        simp_all [wal_changed, bne_iff_ne]
  · simp_all [wal_changed, bne_iff_ne]

/-- Witness for C1 on a concrete tick: a query tick whose returned row has
a new timestamp emits that row. -/
theorem tick_emission_witness :
    (watch_tick ⟨some "t0", none⟩ (some 1)
        (Store.ok [⟨some 1, some "t1", some "alice", some "hi"⟩])).queried = true
    ∧ get_most_recent_message (Store.ok [⟨some 1, some "t1", some "alice", some "hi"⟩])
        = some ⟨some 1, some "t1", some "alice", some "hi"⟩
    ∧ (watch_tick ⟨some "t0", none⟩ (some 1)
        (Store.ok [⟨some 1, some "t1", some "alice", some "hi"⟩])).emitted
        = some ⟨some 1, some "t1", some "alice", some "hi"⟩ :=
  ⟨by decide, rfl,
    ((tick_emission_iff_changed_timestamp ⟨some "t0", none⟩ (some 1)
      (Store.ok [⟨some 1, some "t1", some "alice", some "hi"⟩])
      ⟨some 1, some "t1", some "alice", some "hi"⟩ (by decide) rfl).2.1 (by decide)).2⟩

/-- C2: a store query is issued on a tick exactly when the sampled WAL
modtime differs from the recorded one and the sample is present (not
Absent). -/
theorem tick_queries_iff_sentinel_changed_and_present
    (st : WatchState) (cur : Option Modtime) (store : Store) :
    (watch_tick st cur store).queried = true ↔
      cur ≠ st.last_wal_modtime ∧ cur ≠ none := by
  unfold watch_tick
  by_cases h : wal_changed st.last_wal_modtime cur = true
  · cases cur with
    | none => simp_all [wal_changed, bne_iff_ne]
    | some mt =>
      cases hg : get_most_recent_message store with
      | none => simp_all [wal_changed, bne_iff_ne]
      | some m =>
        by_cases ht : (m.Timestamp != st.last_timestamp) = true <;>
          simp_all [wal_changed, bne_iff_ne]
  · simp_all [wal_changed, bne_iff_ne]

/-- Witness for C2 on a concrete tick: a changed, present sample issues a
query. -/
theorem tick_queries_witness :
    (watch_tick ⟨some "t0", some 1⟩ (some 2) (Store.ok [])).queried = true :=
  (tick_queries_iff_sentinel_changed_and_present ⟨some "t0", some 1⟩ (some 2)
    (Store.ok [])).mpr (by decide)

/-- C3: the sentinel transition table — change holds exactly when the two
samples are unequal, with the Absent value participating in the
comparison. -/
theorem sentinel_transition_table (a b : Modtime) :
    wal_changed none none = false
    ∧ wal_changed none (some b) = true
    ∧ wal_changed (some a) none = true
    ∧ (a ≠ b → wal_changed (some a) (some b) = true)
    ∧ wal_changed (some a) (some a) = false
    ∧ (∀ last cur : Option Modtime, wal_changed last cur = true ↔ cur ≠ last) := by
  refine ⟨rfl, rfl, rfl, ?_, ?_, ?_⟩
  · intro h; simp [wal_changed, bne_iff_ne]; exact h.symm
  · simp [wal_changed]
  · intro last cur; simp [wal_changed, bne_iff_ne]

/-- Witness for C3 at concrete samples. -/
theorem sentinel_transition_table_witness :
    wal_changed (some (1 : Modtime)) (some 2) = true ∧ wal_changed none none = false :=
  ⟨(sentinel_transition_table 1 2).2.2.2.1 (by decide), (sentinel_transition_table 1 2).1⟩

/-- C4 (evaluation at the failing input): two consecutive ticks whose store
query raises `sqlite3.Error`.  Each error tick still completes — the error
is swallowed inside `get_most_recent_message`, nothing is emitted, the
sentinel is recorded — and the loop goes on to execute the next tick
instead of terminating. -/
theorem query_error_tick_continues_polling :
    watch_run ⟨some "t0", some 1⟩
        [(some 2, Store.err "no such table: PrivateMessages"),
         (some 3, Store.err "no such table: PrivateMessages")]
      = [⟨⟨some "t0", some 2⟩, true, none⟩, ⟨⟨some "t0", some 3⟩, true, none⟩] := by
  rfl

/-- C5 counterexample: a query error makes `latest()` return the very same
value as the no-data result — `None` — so the failure is not
distinguishable from "no data" by the returned result. -/
theorem query_error_result_equals_no_data :
    get_most_recent_message (Store.err "no such table: PrivateMessages")
      = get_most_recent_message (Store.ok [])
    ∧ get_most_recent_message (Store.err "no such table: PrivateMessages") = none :=
  ⟨rfl, rfl⟩

/-- C5 amended: `latest()` returns Absent (`None`) on zero rows without
raising, and on every query failure the error is caught and the same
`None` result is returned; a nonempty table always yields a row. -/
theorem latest_none_on_empty_and_error (e : String) (r : Row) (rows : List Row) :
    get_most_recent_message (Store.ok []) = none
    ∧ get_most_recent_message (Store.err e) = none
    ∧ (get_most_recent_message (Store.ok (r :: rows))).isSome = true :=
  ⟨rfl, rfl, latestRow_cons_isSome r rows⟩

/-- Witness for C5 (amended) at a concrete error and a concrete row. -/
theorem latest_none_witness :
    get_most_recent_message (Store.ok []) = none
    ∧ get_most_recent_message (Store.err "disk I/O error") = none
    ∧ (get_most_recent_message
        (Store.ok [⟨some 1, some "t1", some "alice", some "hi"⟩])).isSome = true :=
  latest_none_on_empty_and_error "disk I/O error" ⟨some 1, some "t1", some "alice", some "hi"⟩ []

/-- C6 counterexample: a tick whose sentinel changed but whose queried
timestamp is unchanged (a proxy false positive) emits nothing — no real
change is detected — yet the sentinel component of the watch state is
mutated to the new sample. -/
theorem sentinel_updated_without_content_change :
    (watch_tick ⟨some "t0", some 1⟩ (some 2)
        (Store.ok [⟨some 1, some "t0", some "alice", some "hi"⟩])).emitted = none
    ∧ ((watch_tick ⟨some "t0", some 1⟩ (some 2)
        (Store.ok [⟨some 1, some "t0", some "alice", some "hi"⟩])).state.last_wal_modtime
        == some 1) = false
    ∧ (watch_tick ⟨some "t0", some 1⟩ (some 2)
        (Store.ok [⟨some 1, some "t0", some "alice", some "hi"⟩])).state.last_wal_modtime
      = some 2 :=
  ⟨rfl, by decide, rfl⟩

/-- C6 amended: the watch state is seeded once at watch start from a live
query and a WAL sample; per tick, the sentinel component is set to the new
sample exactly when the sample differs from the recorded value (even when
no content change is detected), the timestamp component is unchanged on
every tick that emits nothing and equals the emitted timestamp on every
tick that emits, and a tick whose sentinel sample is unchanged leaves the
whole state unchanged. -/
theorem watch_state_mutation_discipline
    (st : WatchState) (cur wal : Option Modtime) (store initStore : Store) (m : Row) :
    (get_most_recent_message initStore = some m →
      watch_init initStore wal = some ⟨m.Timestamp, wal⟩)
    ∧ ((watch_tick st cur store).state.last_wal_modtime
        = if wal_changed st.last_wal_modtime cur then cur else st.last_wal_modtime)
    ∧ ((watch_tick st cur store).emitted = none →
        (watch_tick st cur store).state.last_timestamp = st.last_timestamp)
    ∧ (∀ em : Row, (watch_tick st cur store).emitted = some em →
        (watch_tick st cur store).state.last_timestamp = em.Timestamp)
    ∧ (wal_changed st.last_wal_modtime cur = false →
        (watch_tick st cur store).state = st) := by
  refine ⟨?_, ?_, ?_, ?_, ?_⟩
  · intro h
    unfold watch_init
    rw [h]
    rfl
  · unfold watch_tick
    by_cases h : wal_changed st.last_wal_modtime cur = true
    · cases cur with
      | none => simp_all
      | some mt =>
        cases hg : get_most_recent_message store with
        | none => simp_all
        | some m2 =>
          by_cases ht : (m2.Timestamp != st.last_timestamp) = true <;> simp_all
    · simp_all
  · unfold watch_tick
    by_cases h : wal_changed st.last_wal_modtime cur = true
    · cases cur with
      | none => simp_all
      | some mt =>
        cases hg : get_most_recent_message store with
        | none => simp_all
        | some m2 =>
          by_cases ht : (m2.Timestamp != st.last_timestamp) = true <;> simp_all
    · simp_all
  · intro em
    unfold watch_tick
    by_cases h : wal_changed st.last_wal_modtime cur = true
    · cases cur with
      | none => simp_all
      | some mt =>
        cases hg : get_most_recent_message store with
        | none => simp_all
        | some m2 =>
          by_cases ht : (m2.Timestamp != st.last_timestamp) = true <;>
            · intro hem
              simp_all
    · simp_all
  · intro h
    unfold watch_tick
    simp [h]

/-- Witness for C6 (amended) at concrete inputs: initialization, the
unchanged-sentinel frame condition, and an emission-free tick keeping the
timestamp component. -/
theorem watch_state_mutation_witness :
    watch_init (Store.ok [⟨some 1, some "t1", some "alice", some "hi"⟩]) (some 1)
      = some ⟨some "t1", some 1⟩
    ∧ (watch_tick ⟨some "t0", some 1⟩ (some 1) (Store.ok [])).state = ⟨some "t0", some 1⟩
    ∧ (watch_tick ⟨some "t0", some 1⟩ (some 2)
        (Store.ok [⟨some 1, some "t0", some "alice", some "hi"⟩])).state.last_timestamp
      = some "t0" :=
  ⟨(watch_state_mutation_discipline ⟨some "t0", some 1⟩ (some 1) (some 1) (Store.ok [])
      (Store.ok [⟨some 1, some "t1", some "alice", some "hi"⟩])
      ⟨some 1, some "t1", some "alice", some "hi"⟩).1 rfl,
   (watch_state_mutation_discipline ⟨some "t0", some 1⟩ (some 1) (some 1) (Store.ok [])
      (Store.ok []) ⟨some 1, some "t1", some "alice", some "hi"⟩).2.2.2.2 (by decide),
   (watch_state_mutation_discipline ⟨some "t0", some 1⟩ (some 2) (some 1)
      (Store.ok [⟨some 1, some "t0", some "alice", some "hi"⟩])
      (Store.ok []) ⟨some 1, some "t1", some "alice", some "hi"⟩).2.2.1 rfl⟩

/-- C7 counterexample: a watch invocation on a store that opens but holds
zero rows exits with status 0 — `watch_mode` prints its notice and
returns, and `main` finishes normally — not with status 1. -/
theorem watch_no_data_exit_code_zero :
    main_exit_code true (Store.ok []) = some 0
    ∧ (main_exit_code true (Store.ok []) == some 1) = false :=
  ⟨rfl, by decide⟩

/-- C7 amended: on the no-data condition, a one-shot invocation exits with
status 1, while a watch invocation short-circuits and exits with
status 0. -/
theorem no_data_exit_codes (store : Store)
    (h : get_most_recent_message store = none) :
    main_exit_code false store = some 1 ∧ main_exit_code true store = some 0 := by
  simp [main_exit_code, h]

/-- Witness for C7 (amended) at the empty store. -/
theorem no_data_exit_codes_witness :
    main_exit_code false (Store.ok []) = some 1 ∧ main_exit_code true (Store.ok []) = some 0 :=
  no_data_exit_codes (Store.ok []) rfl

/-- C8 counterexample: a row whose `Username` is the empty string — neither
null nor absent — still has the placeholder substituted (Python `or`
treats the empty string as falsy), so the output is not the bare
`[timestamp][sender] body` template for that row. -/
theorem empty_username_gets_placeholder :
    display_default_message (some ⟨some 1, some "2024-01-01T00:00:00", some "", some "hi"⟩)
      = some "[2024-01-01T00:00:00][unknown user] hi"
    ∧ (display_default_message (some ⟨some 1, some "2024-01-01T00:00:00", some "", some "hi"⟩)
        == some "[2024-01-01T00:00:00][] hi") = false :=
  ⟨rfl, by decide⟩

/-- C8 amended: the default one-line output is
`[timestamp][sender] body` with the fixed placeholders `unknown time`,
`unknown user`, `no message` substituted wherever the field is null/absent
or the empty string; in particular the two scenario rows of the claim
render exactly as stated and the line is always well-formed. -/
theorem default_format_characterization :
    (display_default_message (some ⟨some 1, some "2024-01-01T00:00:00", some "alice", some "hi"⟩)
        = some "[2024-01-01T00:00:00][alice] hi")
    ∧ (∀ (i : Option Int) (t u m : String), t ≠ "" → u ≠ "" → m ≠ "" →
        display_default_message (some ⟨i, some t, some u, some m⟩)
          = some ("[" ++ t ++ "][" ++ u ++ "] " ++ m))
    ∧ (∀ i : Option Int,
        display_default_message (some (⟨i, none, none, none⟩ : Row))
          = some "[unknown time][unknown user] no message")
    ∧ (∀ (i : Option Int) (t u m : Option String),
        display_default_message (some ⟨i, t, u, m⟩)
          = some ("[" ++ pyOr t "unknown time" ++ "][" ++ pyOr u "unknown user"
              ++ "] " ++ pyOr m "no message")) := by
  refine ⟨rfl, ?_, ?_, ?_⟩
  · intro i t u m ht hu hm
    simp [display_default_message, pyOr, ht, hu, hm]
  · intro i; rfl
  · intro i t u m; rfl

/-- Witness for C8 (amended) at a concrete row with nonempty fields. -/
theorem default_format_witness :
    display_default_message (some ⟨some 2, some "2024-02-02T00:00:00", some "bob", some "yo"⟩)
      = some "[2024-02-02T00:00:00][bob] yo" :=
  default_format_characterization.2.1 (some 2) "2024-02-02T00:00:00" "bob" "yo"
    (by decide) (by decide) (by decide)

/-- C9 counterexample: a one-shot invocation does not open the store in the
read-only/immutable mode — `main` passes `read_only=False`
unconditionally, so the connection is opened read-write. -/
theorem one_shot_not_read_only :
    main_connect_mode false = ConnMode.rw
    ∧ (main_connect_mode false == ConnMode.roImmutable) = false :=
  ⟨rfl, by decide⟩

/-- C9 amended: both one-shot and watch invocations open the connection in
read-write mode; the read-only/immutable mode exists in
`connect_to_database` but `main` never selects it. -/
theorem main_opens_read_write (watchFlag : Bool) :
    main_connect_mode watchFlag = ConnMode.rw
    ∧ connect_to_database true = ConnMode.roImmutable
    ∧ connect_to_database false = ConnMode.rw :=
  ⟨rfl, rfl, rfl⟩

/-- Witness for C9 (amended) at the one-shot invocation. -/
theorem main_opens_read_write_witness :
    main_connect_mode false = ConnMode.rw :=
  (main_opens_read_write false).1

/-- C10: a tick whose sentinel changed to a present value but whose query
returns no row emits nothing, keeps the recorded timestamp, still records
the new sentinel sample, and the loop carries on to the next tick. -/
theorem tick_query_none_continues
    (st : WatchState) (mt : Modtime) (store : Store)
    (hchg : wal_changed st.last_wal_modtime (some mt) = true)
    (hnone : get_most_recent_message store = none) :
    watch_tick st (some mt) store
      = { state := { last_timestamp := st.last_timestamp, last_wal_modtime := some mt },
          queried := true, emitted := none }
    ∧ ∀ rest, (watch_run st ((some mt, store) :: rest)).length = rest.length + 1 := by
  constructor
  · simp [watch_tick, hchg, hnone]
  · intro rest
    simp [watch_run, watch_run_length]

/-- Witness for C10 at a concrete tick over an empty store. -/
theorem tick_query_none_witness :
    watch_tick ⟨some "t0", none⟩ (some 1) (Store.ok [])
      = { state := { last_timestamp := some "t0", last_wal_modtime := some 1 },
          queried := true, emitted := none } :=
  (tick_query_none_continues ⟨some "t0", none⟩ 1 (Store.ok []) (by decide) rfl).1

end SlskdChatWatcher
